import Mathlib

/-!
Verification of the Huckleberry baby-stat dashboard core transform
(`src/main.py`) against its natural-language specification.

Modelling conventions, fixed once for the whole file:

* Timestamps are integers counting microseconds from an arbitrary epoch
  (polars stores `Datetime` columns as i64 microseconds).  All timestamps
  produced by the program are whole minutes (the parse format is
  `"%Y-%m-%d %H:%M"`), so nothing here depends on the epoch choice.
* Calendar dates are integers counting days; `dt.date()` truncation is
  floor division by `usPerDay`, which is what polars does.  The `/` and `%`
  on `Int` in Lean are Euclidean (floor for a positive divisor), matching.
* Time-of-day columns (`StartTime`, `EndTime` projected by
  `set_constant_date` onto the sentinel date `datetime(1, 1, 1)`) are
  modelled as microseconds since the sentinel midnight.
* A nullable column is an `Option`.  polars comparisons propagate null
  (Kleene logic): a `filter` drops rows whose predicate is null, and a
  `when/then/otherwise` whose predicate is null yields null.
* Machine floats (`Float64`) are modelled as exact rationals; every value
  the claims touch is tiny and exactly representable.
* Fallible pipeline stages (strict parses, strict casts, `int(round(...))`
  applied to `None`) return `Except`.
-/

/-- Number of microseconds in one calendar day. -/
def usPerDay : Int := 86400000000

/-- Number of microseconds in one hour. -/
def usPerHour : Int := 3600000000

/-- Calendar-day number of a timestamp, as in `pl.col(...).dt.date()`
(floor division, matching polars date truncation). -/
def dateOf (t : Int) : Int := t / usPerDay

/-- Time-of-day of a timestamp in microseconds, as produced by
`set_constant_date` (src/main.py lines 31-40): the date component is
collapsed to the sentinel date and only hour/minute/second/microsecond
survive. -/
def todOf (t : Int) : Int := t % usPerDay

/-- Hour (0..23) of a timestamp, as in `.dt.hour()`. -/
def hourOf (t : Int) : Int := (t % usPerDay) / usPerHour

/-- NIGHT_START_HOUR constant (src/main.py line 25). -/
def NIGHT_START_HOUR : Int := 18

/-- NIGHT_END_HOUR constant (src/main.py line 26). -/
def NIGHT_END_HOUR : Int := 6

/-- One parsed event row, after `str.to_datetime` has succeeded: the raw
CSV columns with `Start`/`End` as timestamps.  `End` is nullable (empty
cell for in-progress events); the data model (spec section 3) has `Start`
non-nullable.  The three free-text columns are consumed only by the
growth parser. -/
structure Event where
  type : String
  start : Int
  endTs : Option Int
  startCondition : Option String
  startLocation : Option String
  endCondition : Option String
deriving DecidableEq

/-- Normalized event before the day/night columns: the result of the
`with_columns` chain of `load_and_process_data` (src/main.py lines 47-81),
one field per derived column. -/
structure PreRow where
  type : String
  start : Int
  endTs : Option Int
  nightStart : Int
  startDate : Int
  endDate : Option Int
  duration : Option Int
  startTime : Int
  endTime : Option Int
  middlePoint : Option Int
  startCondition : Option String
  startLocation : Option String
  endCondition : Option String
deriving DecidableEq

/-- Fully normalized event: `PreRow` plus the `DayOrNight` and `NightDay`
columns added after the boundary-day filters (src/main.py lines 94-110). -/
structure NormRow extends PreRow where
  dayOrNight : Option String
  nightDay : Int
deriving DecidableEq

/-- Column derivation of `load_and_process_data` (src/main.py lines
53-81), row by row:
`NightStart` is the start date at NIGHT_START_HOUR;
`StartDate`/`EndDate` are calendar-day truncations;
`Duration = End - Start` (null-propagating);
`StartTime`/`EndTime` are the sentinel-date projections (the
`map_elements` skips nulls, so a null `End` gives a null `EndTime`);
`MiddlePoint = Start + (End - Start)/2` with the engine's integer
microsecond division (for the non-negative spans of well-formed data,
floor and truncating division agree). -/
def deriveRow (e : Event) : PreRow :=
  { type := e.type
    start := e.start
    endTs := e.endTs
    nightStart := usPerDay * dateOf e.start + NIGHT_START_HOUR * usPerHour
    startDate := dateOf e.start
    endDate := e.endTs.map dateOf
    duration := e.endTs.map (fun v => v - e.start)
    startTime := todOf e.start
    endTime := e.endTs.map todOf
    middlePoint := e.endTs.map (fun v => e.start + (v - e.start) / 2)
    startCondition := e.startCondition
    startLocation := e.startLocation
    endCondition := e.endCondition }

/-- Minimum of a list of integers, `none` on the empty list (models the
polars `min` aggregate over a non-null column). -/
def minD : List Int → Option Int
  | [] => none
  | x :: xs =>
    match minD xs with
    | none => some x
    | some m => some (min x m)

/-- Maximum of a list of integers, `none` on the empty list (models the
polars `max` aggregate; nulls are ignored by the caller via `filterMap`). -/
def maxD : List Int → Option Int
  | [] => none
  | x :: xs =>
    match maxD xs with
    | none => some x
    | some m => some (max x m)

/-- Predicate of the first boundary filter
`.filter(pl.col("StartDate") > pl.col("StartDate").min())`
(src/main.py line 82), evaluated against the whole pre-filter table. -/
def keepAfterMin (pre : List PreRow) (r : PreRow) : Bool :=
  match minD (pre.map (fun p => p.startDate)) with
  | some m => decide (m < r.startDate)
  | none => false

/-- Predicate of the second boundary filter
`.filter((pl.col("EndDate") < pl.col("EndDate").max()) | pl.col("EndDate").is_null())`
(src/main.py lines 83-86).  It runs on the output of the first filter, so
the `max` ranges over that already-filtered table; `max` ignores nulls.
A null `EndDate` compares as null (row dropped) but is rescued by the
`is_null` disjunct. -/
def keepBeforeMax (f1 : List PreRow) (r : PreRow) : Bool :=
  match r.endDate with
  | none => true
  | some ed =>
    match maxD (f1.filterMap (fun p => p.endDate)) with
    | some mx => decide (ed < mx)
    | none => false

/-- Day/night classification and night grouping key (src/main.py lines
94-110).  `DayOrNight` comes from the hour of `MiddlePoint` tested against
the wrap-around window with the OR of the two ranges; a null `MiddlePoint`
(null `End`) makes the `when` predicate null, which yields a null result.
`NightDay` is `StartDate` when the hour of `StartTime` is at least
NIGHT_START_HOUR and otherwise `StartDate + pl.duration(days=1)`
(note: the code adds one day, line 108). -/
def addDayNight (p : PreRow) : NormRow :=
  { toPreRow := p
    dayOrNight := p.middlePoint.map (fun mp =>
      if NIGHT_START_HOUR ≤ hourOf mp ∨ hourOf mp < NIGHT_END_HOUR
      then "Night" else "Day")
    nightDay :=
      if NIGHT_START_HOUR ≤ hourOf p.startTime
      then p.startDate else p.startDate + 1 }

/-- Core of `load_and_process_data` after timestamp parsing (src/main.py
lines 53-110): derive the per-row columns, drop the first boundary day,
drop the last boundary day (null `EndDate` exempt), then add the
day/night columns. -/
def processRows (df : List Event) : List NormRow :=
  let pre := df.map deriveRow
  let f1 := pre.filter (keepAfterMin pre)
  let f2 := f1.filter (keepBeforeMax f1)
  f2.map addDayNight

/-- Normalization of a single event carried through the pipeline: every
row of `processRows` output is `deriveFull` of some input event (the
filters only drop rows). -/
def deriveFull (e : Event) : NormRow := addDayNight (deriveRow e)

/-- Helper to build a parsed event. -/
def mkEv (t : String) (s : Int) (e : Option Int) : Event :=
  { type := t, start := s, endTs := e
    startCondition := none, startLocation := none, endCondition := none }

/-- Gantt segment `(Type, StartTime, EndTime, Date)` (src/main.py lines
147-149).  `EndTime` and `Date` keep the nullable column types of the
frame they are selected from. -/
structure GanttSeg where
  type : String
  startTime : Int
  endTime : Option Int
  date : Option Int
deriving DecidableEq

/-- Filter predicate of the one-day branch
`df.filter(pl.col("StartDate") == pl.col("EndDate"))` (src/main.py line
118); a null `EndDate` makes the comparison null, so the row is dropped. -/
def sameDay (r : NormRow) : Bool :=
  match r.endDate with
  | some d => decide (d = r.startDate)
  | none => false

/-- Filter predicate of the two-day branch
`df.filter(pl.col("StartDate") != pl.col("EndDate"))` (src/main.py line
121); a null `EndDate` again makes the comparison null and drops the row. -/
def diffDay (r : NormRow) : Bool :=
  match r.endDate with
  | some d => decide (¬(d = r.startDate))
  | none => false

/-- Time-of-day of `datetime(1, 1, 1, 23, 59, 59, 0)`, the literal
`EndTime` of the before-midnight segment (src/main.py lines 124-134). -/
def endOfDayUs : Int := 86399000000

/-- Interval Splitter `create_data_for_gantt` (src/main.py lines
115-149): one unchanged segment for same-day events; for events whose
`StartDate` and `EndDate` differ, one segment ending at 23:59:59.000000
on `StartDate` and one starting at 00:00:00 on `EndDate`.  The three
parts are concatenated in source order. -/
def createDataForGantt (rows : List NormRow) : List GanttSeg :=
  (rows.filter sameDay).map
    (fun r => { type := r.type, startTime := r.startTime
                endTime := r.endTime, date := some r.startDate })
  ++ (rows.filter diffDay).map
    (fun r => { type := r.type, startTime := r.startTime
                endTime := some endOfDayUs, date := some r.startDate })
  ++ (rows.filter diffDay).map
    (fun r => { type := r.type, startTime := 0
                endTime := r.endTime, date := r.endDate })

/-- Coverage semantics of a Gantt segment, used to state the splitter
claims: a segment occupies, on its calendar day, the closed time-of-day
range from `startTime` through `endTime` (a rendered bar includes both
endpoints; the closed reading is the generous one).  `t` is an absolute
microsecond timestamp.  A segment with a null `EndTime` or null `Date`
covers nothing. -/
def segCoversT (g : GanttSeg) (t : Int) : Bool :=
  match g.date, g.endTime with
  | some d, some et =>
    decide (usPerDay * d + g.startTime ≤ t) && decide (t ≤ usPerDay * d + et)
  | _, _ => false

/-- Accumulator pass behind `uniqueKeys`: keeps the keys not seen yet. -/
def uniqueKeysAux (seen : List Int) : List Int → List Int
  | [] => []
  | k :: ks =>
    if seen.contains k then uniqueKeysAux seen ks
    else k :: uniqueKeysAux (k :: seen) ks

/-- Keys of a group-by in order of first occurrence, one occurrence each. -/
def uniqueKeys (l : List Int) : List Int := uniqueKeysAux [] l

/-- Mean of a nullable microsecond-duration column, as `pl.col("Duration").mean()`:
nulls are ignored, the mean of no values is null.  The value is kept as an
exact rational. -/
def meanOpt (ds : List (Option Int)) : Option ℚ :=
  let v := ds.filterMap id
  if v.length = 0 then none else some (mkRat v.sum v.length)

/-- Rows feeding the night ranking:
`.filter(pl.col("Type") == "Sleep").filter(pl.col("DayOrNight") == "Night")`
(src/main.py lines 155-156); a null `DayOrNight` compares as null and is
dropped, same as a mismatch. -/
def sleepNights (rows : List NormRow) : List NormRow :=
  (rows.filter (fun r => r.type == "Sleep")).filter
    (fun r => r.dayOrNight == some "Night")

/-- Result of `.group_by("NightDay").agg(pl.col("Duration").mean())`
(src/main.py lines 157-158) on the sleep/night rows: one `(NightDay, mean
Duration)` pair per distinct key.  polars does not fix a group order; the
model uses first-occurrence order. -/
def groupMeans (rows : List NormRow) : List (Int × Option ℚ) :=
  (uniqueKeys (rows.map (fun r => r.nightDay))).map (fun k =>
    (k, meanOpt ((rows.filter (fun r => r.nightDay == k)).map
      (fun r => r.duration))))

/-- Comparator of `.sort("Duration", descending=True, nulls_last=True)`:
larger means first, nulls after every non-null. -/
def descLe : Option ℚ → Option ℚ → Bool
  | some a, some b => decide (b ≤ a)
  | some _, none => true
  | none, some _ => false
  | none, none => true

/-- Comparator of `.sort("Duration", nulls_last=True)` (ascending):
smaller means first, nulls after every non-null. -/
def ascLe : Option ℚ → Option ℚ → Bool
  | some a, some b => decide (a ≤ b)
  | some _, none => true
  | none, some _ => false
  | none, none => true

/-- Ordering relation on ranked rows for the descending (best-night) sort. -/
def rDesc (a b : Int × Option ℚ) : Prop := descLe a.2 b.2 = true

/-- Ordering relation on ranked rows for the ascending (worst-night) sort. -/
def rAsc (a b : Int × Option ℚ) : Prop := ascLe a.2 b.2 = true

instance : DecidableRel rDesc :=
  fun a b => inferInstanceAs (Decidable (descLe a.2 b.2 = true))

instance : DecidableRel rAsc :=
  fun a b => inferInstanceAs (Decidable (ascLe a.2 b.2 = true))

/-- Mean value of a ranked row, defaulting nulls to 0; only used to state
order facts about tables whose means are known non-null. -/
def meanVal (g : Int × Option ℚ) : ℚ := g.2.getD 0

/-- Best-night table `create_best_days_df` (src/main.py lines 153-163):
sleep/night rows grouped by `NightDay` with mean `Duration`, sorted
descending with nulls last, top 10; the pair components are the renamed
`(Date, Duration)` columns.  The model's sort is stable; polars leaves
tie order unspecified. -/
def createBestDaysDF (rows : List NormRow) : List (Int × Option ℚ) :=
  (List.insertionSort rDesc (groupMeans (sleepNights rows))).take 10

/-- Worst-night table `create_worst_days_df` (src/main.py lines 166-176):
same grouping, sorted ascending with nulls last, top 10. -/
def createWorstDaysDF (rows : List NormRow) : List (Int × Option ℚ) :=
  (List.insertionSort rAsc (groupMeans (sleepNights rows))).take 10

/-- Mean of a list of rationals, null on the empty list (the overview
metrics take `.mean().item()`, which is `None` exactly when there are no
groups). -/
def meanQ (vs : List ℚ) : Option ℚ :=
  if vs.length = 0 then none else some (vs.sum / (vs.length : ℚ))

/-- Python `round(x, 0)` (banker's rounding, half to even). -/
def pyRound (q : ℚ) : Int :=
  let f := Int.floor q
  let r := q - (f : ℚ)
  if r < 1 / 2 then f
  else if 1 / 2 < r then f + 1
  else if f % 2 = 0 then f else f + 1

/-- Models `int(round(x, 0))` applied to the result of `.item()`: when the
aggregation produced null, `.item()` is `None` and `round(None, 0)` raises
`TypeError`, so the whole expression fails instead of producing a value. -/
def intRound (m : Option ℚ) : Except Unit Int :=
  match m with
  | none => .error ()
  | some q => .ok (pyRound q)

/-- Sleep rows: `df.filter(pl.col("Type") == "Sleep")`. -/
def sleepRows (rows : List NormRow) : List NormRow :=
  rows.filter (fun r => r.type == "Sleep")

/-- Rows of one `StartDate` group. -/
def rowsOnDate (rows : List NormRow) (k : Int) : List NormRow :=
  rows.filter (fun r => r.startDate == k)

/-- Total sleep hours of one group:
`pl.col("Duration").sum().cast(pl.Float64).mul(1 / (60 * 60 * 1e6))`
(nulls are ignored by the sum; the sum of no values is 0). -/
def sumHours (g : List NormRow) : ℚ :=
  (((g.filterMap (fun r => r.duration)).sum : ℚ)) * (1 / ((60 : ℚ) * 60 * 1000000))

/-- Overview metric "Sleep hours per day" (src/main.py lines 298-313):
mean over per-`StartDate` groups of total sleep hours, then
`int(round(..., 0))`; fails when there are no groups. -/
def sleepHoursPerDayMetric (rows : List NormRow) : Except Unit Int :=
  intRound (meanQ ((uniqueKeys ((sleepRows rows).map (fun r => r.startDate))).map
    (fun k => sumHours (rowsOnDate (sleepRows rows) k))))

/-- Overview metric "Sleeps per day" (src/main.py lines 315-330):
mean of per-`StartDate` group row counts, then `int(round(..., 0))`. -/
def sleepsPerDayMetric (rows : List NormRow) : Except Unit Int :=
  intRound (meanQ ((uniqueKeys ((sleepRows rows).map (fun r => r.startDate))).map
    (fun k => ((rowsOnDate (sleepRows rows) k).length : ℚ))))

/-- Share of night-sleep duration in one group:
`(Duration * (DayOrNight == "Night").cast(Float64)).sum() / Duration.sum()`.
Rows with a null `Duration` or null `DayOrNight` contribute null to the
numerator product and are skipped by the sum; a zero denominator gives
float `0.0 / 0.0 = NaN`, modelled as `none`. -/
def shareOfNight (g : List NormRow) : Option ℚ :=
  let den : Int := (g.filterMap (fun r => r.duration)).sum
  let num : Int := (g.filterMap (fun r =>
    match r.duration, r.dayOrNight with
    | some d, some s => some (if s == "Night" then d else 0)
    | _, _ => none)).sum
  if den = 0 then none else some ((num : ℚ) / (den : ℚ))

/-- Overview metric "% of night sleep hours" (src/main.py lines 332-356):
mean over per-`StartDate` groups of the night share, times 100, rounded.
With no groups `.item()` is `None` and `round` raises; a `NaN` group share
(zero total duration) poisons the float mean and `int(NaN)` raises —
both are the error case. -/
def nightShareMetric (rows : List NormRow) : Except Unit Int :=
  let gs := (uniqueKeys ((sleepRows rows).map (fun r => r.startDate))).map
    (fun k => shareOfNight (rowsOnDate (sleepRows rows) k))
  if gs.length = 0 then .error ()
  else if gs.any (fun s => s.isNone) then .error ()
  else .ok (pyRound ((gs.filterMap id).sum / (gs.length : ℚ) * 100))

/-- Overview metric "Feeds per day" (src/main.py lines 358-373): mean of
per-`StartDate` group row counts over `Type == "Feed"` rows. -/
def feedsPerDayMetric (rows : List NormRow) : Except Unit Int :=
  let fr := rows.filter (fun r => r.type == "Feed")
  intRound (meanQ ((uniqueKeys (fr.map (fun r => r.startDate))).map
    (fun k => ((rowsOnDate fr k).length : ℚ))))

/-- Removal of the first occurrence of a two-character pattern, as
`.str.replace(pat, "")` does for the literal patterns `"kg"`/`"cm"`
(polars replaces only the first match). -/
def removeFirstSub (p1 p2 : Char) : List Char → List Char
  | [] => []
  | [c] => [c]
  | c1 :: c2 :: cs =>
    if c1 = p1 ∧ c2 = p2 then cs
    else c1 :: removeFirstSub p1 p2 (c2 :: cs)

/-- String version of `removeFirstSub`. -/
def stripUnit (p1 p2 : Char) (s : String) : String :=
  String.mk (removeFirstSub p1 p2 s.toList)

/-- Digit characters to a number, most significant first. -/
def digitsToNat (cs : List Char) : Nat :=
  cs.foldl (fun n c => n * 10 + (c.toNat - 48)) 0

/-- Unsigned decimal literal: digits with an optional fractional part.
Returns the exact rational value, or `none` when the text is not numeric. -/
def parseDecimal (cs : List Char) : Option ℚ :=
  let ip := cs.takeWhile Char.isDigit
  let rest := cs.drop ip.length
  match rest with
  | [] => if ip.isEmpty then none else some ((digitsToNat ip : ℚ))
  | '.' :: fp =>
    if fp.all Char.isDigit ∧ ¬(ip.isEmpty ∧ fp.isEmpty)
    then some ((digitsToNat ip : ℚ) + (digitsToNat fp : ℚ) / ((10 : ℚ) ^ fp.length))
    else none
  | _ => none

/-- Success/value of the string-to-Float64 conversion used by the strict
cast, for the signed decimal forms this data carries (scientific and
infinity forms do not occur; only definedness matters to the claims). -/
def parseFloatQ (s : String) : Option ℚ :=
  match s.toList with
  | '-' :: cs => (parseDecimal cs).map (fun q => -q)
  | '+' :: cs => parseDecimal cs
  | cs => parseDecimal cs

/-- Strict cast `.cast(pl.Float64)` of a nullable string cell: null passes
through as null, a non-null cell that does not convert raises
`InvalidOperationError` (polars `cast` is strict by default). -/
def castStrict (p1 p2 : Char) (v : Option String) : Except String (Option ℚ) :=
  match v with
  | none => Except.ok none
  | some s =>
    match parseFloatQ (stripUnit p1 p2 s) with
    | some q => Except.ok (some q)
    | none => Except.error "InvalidOperationError"

/-- Row of the growth table (src/main.py lines 281-294) after the renames:
`Weight` is `Start Condition` with `"kg"` stripped, `Height` is
`Start Location` and `HeadCircumference` is `End Condition` with `"cm"`
stripped, all cast to floats. -/
structure GrowthRow where
  startDate : Int
  weight : Option ℚ
  height : Option ℚ
  headCircumference : Option ℚ
deriving DecidableEq

/-- Conversion of one growth row through the three strip-and-cast columns. -/
def growthRowOf (r : NormRow) : Except String GrowthRow :=
  match castStrict 'k' 'g' r.startCondition with
  | Except.error e => Except.error e
  | Except.ok w =>
    match castStrict 'c' 'm' r.startLocation with
    | Except.error e => Except.error e
    | Except.ok h =>
      match castStrict 'c' 'm' r.endCondition with
      | Except.error e => Except.error e
      | Except.ok hc => Except.ok { startDate := r.startDate, weight := w
                                    height := h, headCircumference := hc }

/-- Traversal of the growth rows; any failing cell aborts the whole table
(polars evaluates the casts column-wise, but both models abort exactly
when some cell of a growth row fails to convert). -/
def growthRowsGo : List NormRow → Except String (List GrowthRow)
  | [] => Except.ok []
  | r :: rs =>
    match growthRowOf r with
    | Except.error e => Except.error e
    | Except.ok g =>
      match growthRowsGo rs with
      | Except.error e => Except.error e
      | Except.ok gs => Except.ok (g :: gs)

/-- Growth table construction `growth_df` (src/main.py lines 281-294):
filter to `Type == "Growth"`, strip the unit suffixes, strict-cast to
floats. -/
def growthDF (rows : List NormRow) : Except String (List GrowthRow) :=
  growthRowsGo (rows.filter (fun r => r.type == "Growth"))

/-- Leap-year test of the proleptic Gregorian calendar. -/
def isLeapYear (y : Int) : Bool :=
  (y % 4 == 0 && y % 100 != 0) || y % 400 == 0

/-- Days in a month of the proleptic Gregorian calendar. -/
def daysInMonth (y : Int) (m : Nat) : Nat :=
  if m = 2 then (if isLeapYear y then 29 else 28)
  else if m = 4 ∨ m = 6 ∨ m = 9 ∨ m = 11 then 30
  else 31

/-- Day number of a civil date (days since 1970-01-01, proleptic
Gregorian), written with floor divisions. -/
def daysFromCivil (y : Int) (m d : Nat) : Int :=
  let yAdj : Int := if m ≤ 2 then y - 1 else y
  let era : Int := yAdj / 400
  let yoe : Int := yAdj - era * 400
  let mp : Int := ((m : Int) + 9) % 12
  let doy : Int := (153 * mp + 2) / 5 + ((d : Int) - 1)
  let doe : Int := yoe * 365 + yoe / 4 - yoe / 100 + doy
  era * 146097 + doe - 719468

/-- Strict parse of a timestamp in the fixed format `"%Y-%m-%d %H:%M"`
(DATE_FORMAT, src/main.py line 27), as `str.to_datetime` applies it:
exact shape, calendar-valid field ranges, result in microseconds. -/
def parseDT (s : String) : Option Int :=
  match s.toList with
  | [y1, y2, y3, y4, c1, m1, m2, c2, d1, d2, c3, h1, h2, c4, n1, n2] =>
    if y1.isDigit ∧ y2.isDigit ∧ y3.isDigit ∧ y4.isDigit
       ∧ m1.isDigit ∧ m2.isDigit ∧ d1.isDigit ∧ d2.isDigit
       ∧ h1.isDigit ∧ h2.isDigit ∧ n1.isDigit ∧ n2.isDigit
       ∧ c1 = '-' ∧ c2 = '-' ∧ c3 = ' ' ∧ c4 = ':'
    then
      let y : Int := (digitsToNat [y1, y2, y3, y4] : Int)
      let mo := digitsToNat [m1, m2]
      let d := digitsToNat [d1, d2]
      let h := digitsToNat [h1, h2]
      let mi := digitsToNat [n1, n2]
      if 1 ≤ mo ∧ mo ≤ 12 ∧ 1 ≤ d ∧ d ≤ daysInMonth y mo ∧ h ≤ 23 ∧ mi ≤ 59
      then some (daysFromCivil y mo d * usPerDay
        + (h : Int) * usPerHour + (mi : Int) * 60000000)
      else none
    else none
  | _ => none

/-- One raw CSV row: `Start` is a string, `End` is nullable (empty cell),
the free-text columns are nullable. -/
structure RawRow where
  type : String
  start : String
  endRaw : Option String
  startCondition : Option String
  startLocation : Option String
  endCondition : Option String
deriving DecidableEq

/-- Raw CSV table: the rows plus presence flags for the two columns the
loader addresses with `pl.col` (a missing `Start`/`End` column makes
`str.to_datetime` raise `ColumnNotFoundError` inside the `try`). -/
structure RawTable where
  hasStart : Bool
  hasEnd : Bool
  rows : List RawRow
deriving DecidableEq

/-- Parse of one raw row: both timestamps must match DATE_FORMAT
(`strict=True`, the polars default), a null `End` passes through as null. -/
def parseRow (r : RawRow) : Except String Event :=
  match parseDT r.start with
  | none => Except.error "ParseError"
  | some s =>
    match r.endRaw with
    | none => Except.ok { type := r.type, start := s, endTs := none
                          startCondition := r.startCondition
                          startLocation := r.startLocation
                          endCondition := r.endCondition }
    | some es =>
      match parseDT es with
      | none => Except.error "ParseError"
      | some v => Except.ok { type := r.type, start := s, endTs := some v
                              startCondition := r.startCondition
                              startLocation := r.startLocation
                              endCondition := r.endCondition }

/-- Parse of all rows; the first malformed row aborts the whole load. -/
def parseRows : List RawRow → Except String (List Event)
  | [] => Except.ok []
  | r :: rs =>
    match parseRow r with
    | Except.error e => Except.error e
    | Except.ok ev =>
      match parseRows rs with
      | Except.error e => Except.error e
      | Except.ok evs => Except.ok (ev :: evs)

/-- Whole loader `load_and_process_data` (src/main.py lines 45-112): the
`try` block re-raises any column-lookup or parse failure after logging it
(logging is a side effect outside this model), so the caller receives
either the fully processed table or an error, never a partial dataset. -/
def loadAndProcessData (t : RawTable) : Except String (List NormRow) :=
  if t.hasStart && t.hasEnd then
    match parseRows t.rows with
    | Except.error e => Except.error e
    | Except.ok evs => Except.ok (processRows evs)
  else Except.error "ColumnNotFoundError"

/-- Discriminator for the error case of an `Except`. -/
def exceptIsError {ε α : Type} : Except ε α → Bool
  | Except.error _ => true
  | Except.ok _ => false

/-- Malformedness of one raw row under DATE_FORMAT: the `Start` cell or a
non-null `End` cell fails to parse. -/
def rowMalformed (r : RawRow) : Bool :=
  (parseDT r.start).isNone ||
    (match r.endRaw with
     | some es => (parseDT es).isNone
     | none => false)

/-- Calendar days mentioned anywhere in a parsed log, each day once: the
days of all `Start` timestamps and of all non-null `End` timestamps. -/
def daysMentioned (df : List Event) : List Int :=
  (df.map (fun e => dateOf e.start)
    ++ df.filterMap (fun e => e.endTs.map dateOf)).dedup

/-- Well-formedness of one event: `End` present and not before `Start`. -/
def wfEnd (e : Event) : Bool :=
  match e.endTs with
  | some v => decide (e.start ≤ v)
  | none => false

/-- Three-day log whose middle event starts at 10:00: day 0 and day 2 are
boundary days, the day-1 event survives the trim. -/
def exDfC1 : List Event :=
  [mkEv "Sleep" 79200000000 (some 82800000000),
   mkEv "Sleep" (usPerDay + 36000000000) (some (usPerDay + 37800000000)),
   mkEv "Sleep" (2 * usPerDay + 79200000000) (some (2 * usPerDay + 82800000000))]

/-- An overnight event: day 0 at 22:00 until day 1 at 06:00. -/
def evC2 : Event := mkEv "Sleep" 79200000000 (some (usPerDay + 21600000000))

/-- Three-day log whose last-day row has a null `End`: the null exemption
of the second boundary filter keeps it. -/
def exDfC3 : List Event :=
  [mkEv "Sleep" 36000000000 (some 39600000000),
   mkEv "Sleep" (usPerDay + 36000000000) (some (usPerDay + 39600000000)),
   mkEv "Sleep" (2 * usPerDay + 36000000000) none]

/-- Two-day log with a null-`End` row on the second day. -/
def exDfC4 : List Event :=
  [mkEv "Sleep" 36000000000 (some 39600000000),
   mkEv "Sleep" (usPerDay + 36000000000) none]

/-- Well-formed two-day log (every `End` present and after `Start`). -/
def exDfC4w : List Event :=
  [mkEv "Sleep" 36000000000 (some 39600000000),
   mkEv "Sleep" (usPerDay + 36000000000) (some (usPerDay + 39600000000))]

/-- Three-day log whose surviving event starts and ends at 18:00 on day 1,
so its `MiddlePoint` hour is exactly NIGHT_START_HOUR. -/
def exDfC5 : List Event :=
  [mkEv "Sleep" 36000000000 (some 39600000000),
   mkEv "Sleep" (usPerDay + 64800000000) (some (usPerDay + 64800000000)),
   mkEv "Sleep" (2 * usPerDay + 36000000000) (some (2 * usPerDay + 39600000000))]

/-- Log with 21 night sleeps (22:00-23:00 on days 1..21) of identical
duration, padded with boundary-day rows on day 0 and day 22 so that all
21 survive the trim. -/
def exTieEvents : List Event :=
  mkEv "Sleep" 36000000000 (some 39600000000)
    :: ((List.range 21).map (fun i =>
          mkEv "Sleep" (((i : Int) + 1) * usPerDay + 79200000000)
            (some (((i : Int) + 1) * usPerDay + 82800000000)))
    ++ [mkEv "Sleep" (22 * usPerDay + 36000000000) (some (22 * usPerDay + 39600000000))])

/-- Log with 21 night sleeps of pairwise distinct durations (1..21
minutes, starting 22:00 on days 1..21), padded like `exTieEvents`. -/
def exDistinctEvents : List Event :=
  mkEv "Sleep" 36000000000 (some 39600000000)
    :: ((List.range 21).map (fun i =>
          mkEv "Sleep" (((i : Int) + 1) * usPerDay + 79200000000)
            (some (((i : Int) + 1) * usPerDay + 79200000000 + ((i : Int) + 1) * 60000000)))
    ++ [mkEv "Sleep" (22 * usPerDay + 36000000000) (some (22 * usPerDay + 39600000000))])

/-- Raw table with one row whose `Start` cell is not in DATE_FORMAT. -/
def exBadTable : RawTable :=
  { hasStart := true, hasEnd := true
    rows := [{ type := "Sleep", start := "garbage", endRaw := none
               startCondition := none, startLocation := none
               endCondition := none }] }

/-- Normalized growth row whose `Start Condition` (weight) cell is
non-null and non-numeric after suffix stripping. -/
def exBadGrowth : NormRow :=
  { type := "Growth", start := 36000000000, endTs := none
    nightStart := 64800000000, startDate := 0, endDate := none
    duration := none, startTime := 36000000000, endTime := none
    middlePoint := none, startCondition := some "abc"
    startLocation := none, endCondition := none
    dayOrNight := none, nightDay := 1 }

/-- Normalized growth row with all three measurement cells null. -/
def exNullGrowth : NormRow :=
  { type := "Growth", start := 36000000000, endTs := none
    nightStart := 64800000000, startDate := 0, endDate := none
    duration := none, startTime := 36000000000, endTime := none
    middlePoint := none, startCondition := none
    startLocation := none, endCondition := none
    dayOrNight := none, nightDay := 1 }

/-- Normalized row with a null `End` (hence null `EndDate`). -/
def exNullEndRow : NormRow := deriveFull (mkEv "Sleep" 36000000000 none)

/-! ### Helper lemmas -/

theorem minD_eq_none {l : List Int} : minD l = none ↔ l = [] := by
  cases l with
  | nil => simp [minD]
  | cons a as =>
    unfold minD
    cases h : minD as <;> simp

theorem minD_mem (l : List Int) : ∀ m : Int, minD l = some m → m ∈ l := by
  induction l with
  | nil => intro m h; simp [minD] at h
  | cons a as ih =>
    intro m h
    unfold minD at h
    cases ha : minD as with
    | none =>
      rw [ha] at h
      simp at h
      simp [h]
    | some k =>
      rw [ha] at h
      simp at h
      rcases min_choice a k with hc | hc <;> rw [hc] at h
      · simp [h]
      · exact List.mem_cons_of_mem _ (h ▸ ih k ha)

theorem minD_le (l : List Int) : ∀ m : Int, minD l = some m → ∀ x ∈ l, m ≤ x := by
  induction l with
  | nil => intro m h; simp [minD] at h
  | cons a as ih =>
    intro m h x hx
    unfold minD at h
    cases ha : minD as with
    | none =>
      rw [ha] at h
      simp at h
      have : as = [] := minD_eq_none.mp ha
      subst this
      simp at hx
      omega
    | some k =>
      rw [ha] at h
      simp at h
      rcases List.mem_cons.mp hx with hx | hx
      · have : m ≤ a := by rw [← h]; exact min_le_left _ _
        omega
      · have hk : k ≤ x := ih k ha x hx
        have : m ≤ k := by rw [← h]; exact min_le_right _ _
        omega

theorem maxD_eq_none {l : List Int} : maxD l = none ↔ l = [] := by
  cases l with
  | nil => simp [maxD]
  | cons a as =>
    unfold maxD
    cases h : maxD as <;> simp

theorem maxD_mem (l : List Int) : ∀ m : Int, maxD l = some m → m ∈ l := by
  induction l with
  | nil => intro m h; simp [maxD] at h
  | cons a as ih =>
    intro m h
    unfold maxD at h
    cases ha : maxD as with
    | none =>
      rw [ha] at h
      simp at h
      simp [h]
    | some k =>
      rw [ha] at h
      simp at h
      rcases max_choice a k with hc | hc <;> rw [hc] at h
      · simp [h]
      · exact List.mem_cons_of_mem _ (h ▸ ih k ha)

theorem maxD_ge (l : List Int) : ∀ m : Int, maxD l = some m → ∀ x ∈ l, x ≤ m := by
  induction l with
  | nil => intro m h; simp [maxD] at h
  | cons a as ih =>
    intro m h x hx
    unfold maxD at h
    cases ha : maxD as with
    | none =>
      rw [ha] at h
      simp at h
      have : as = [] := maxD_eq_none.mp ha
      subst this
      simp at hx
      omega
    | some k =>
      rw [ha] at h
      simp at h
      rcases List.mem_cons.mp hx with hx | hx
      · have : a ≤ m := by rw [← h]; exact le_max_left _ _
        omega
      · have hk : x ≤ k := ih k ha x hx
        have : k ≤ m := by rw [← h]; exact le_max_right _ _
        omega

/-- Unpacking membership in the normalizer output: a surviving row is
`deriveFull` of an input event that passed both boundary filters. -/
theorem mem_processRows {df : List Event} {r : NormRow} (h : r ∈ processRows df) :
    ∃ e ∈ df,
      keepAfterMin (df.map deriveRow) (deriveRow e) = true
      ∧ keepBeforeMax ((df.map deriveRow).filter (keepAfterMin (df.map deriveRow)))
          (deriveRow e) = true
      ∧ r = deriveFull e := by
  simp only [processRows, List.mem_map, List.mem_filter] at h
  obtain ⟨p, ⟨⟨⟨e, he, hep⟩, h1⟩, h2⟩, hr⟩ := h
  subst hep
  exact ⟨e, he, h1, h2, hr.symm⟩

/-! ### Claim C1 -/

/-- Claim C1 counterexample: the claim says an event whose `Start` hour is
below NIGHT_START_HOUR gets `NightDay = StartDate - 1 day`, but the
surviving row of `exDfC1` starts at hour 10 on day 1 and the code gives it
`NightDay = 2 = StartDate + 1` (src/main.py line 108 adds
`pl.duration(days=1)`), not `0 = StartDate - 1`. -/
theorem nightday_minus_counterexample :
    (processRows exDfC1).map (fun r => (hourOf r.startTime, r.startDate, r.nightDay))
      = [(10, 1, 2)]
    ∧ (processRows exDfC1).all (fun r => !(r.nightDay == r.startDate - 1)) = true := by
  decide

/-- Claim C1 (amended): for every normalized event, `NightDay` equals
`StartDate` when the `Start` hour is at least NIGHT_START_HOUR and
`StartDate` plus one day otherwise (the code adds one day; the spec's
"minus 1 day" does not match src/main.py line 108). -/
theorem nightday_amended (df : List Event) (r : NormRow) (hr : r ∈ processRows df) :
    (NIGHT_START_HOUR ≤ hourOf r.startTime → r.nightDay = r.startDate)
    ∧ (hourOf r.startTime < NIGHT_START_HOUR → r.nightDay = r.startDate + 1) := by
  obtain ⟨e, _, _, _, hre⟩ := mem_processRows hr
  subst hre
  constructor
  · intro h
    simp only [deriveFull, addDayNight] at h ⊢
    rw [if_pos h]
  · intro h
    simp only [deriveFull, addDayNight] at h ⊢
    rw [if_neg (Int.not_le.mpr h)]

/-- Witness for `nightday_amended` at the surviving row of `exDfC1`. -/
theorem nightday_amended_witness :
    deriveFull (mkEv "Sleep" (usPerDay + 36000000000) (some (usPerDay + 37800000000)))
        ∈ processRows exDfC1
    ∧ (deriveFull (mkEv "Sleep" (usPerDay + 36000000000) (some (usPerDay + 37800000000)))).nightDay
        = (deriveFull (mkEv "Sleep" (usPerDay + 36000000000) (some (usPerDay + 37800000000)))).startDate + 1 :=
  ⟨by decide,
   (nightday_amended exDfC1 _ (by decide)).2 (by decide)⟩

/-! ### Claim C5 -/

/-- Claim C5: for every normalized event with a non-null `MiddlePoint`,
`DayOrNight` is `Night` exactly when the hour of `MiddlePoint` lies in the
wrap-around window `[NIGHT_START_HOUR, 24) ∪ [0, NIGHT_END_HOUR)` — the OR
of the two ranges (src/main.py lines 94-102).  In particular hour 18 gives
`Night`, hour 6 gives `Day`, 17:59 (hour 17) gives `Day` and 5:59 (hour 5)
gives `Night`. -/
theorem day_or_night_boundary (df : List Event) (r : NormRow) (hr : r ∈ processRows df)
    (mp : Int) (hmp : r.middlePoint = some mp) :
    ((NIGHT_START_HOUR ≤ hourOf mp ∨ hourOf mp < NIGHT_END_HOUR)
        → r.dayOrNight = some "Night")
    ∧ ((hourOf mp < NIGHT_START_HOUR ∧ NIGHT_END_HOUR ≤ hourOf mp)
        → r.dayOrNight = some "Day") := by
  obtain ⟨e, _, _, _, hre⟩ := mem_processRows hr
  subst hre
  simp only [deriveFull, addDayNight] at hmp ⊢
  rw [hmp]
  constructor
  · intro h
    simp [if_pos h]
  · intro h
    have hn : ¬(NIGHT_START_HOUR ≤ hourOf mp ∨ hourOf mp < NIGHT_END_HOUR) := by
      push_neg
      exact h
    simp [if_neg hn]

/-- Witness for `day_or_night_boundary`: the surviving row of `exDfC5`
has `MiddlePoint` at exactly 18:00 and is classified `Night`. -/
theorem day_or_night_boundary_witness :
    deriveFull (mkEv "Sleep" (usPerDay + 64800000000) (some (usPerDay + 64800000000)))
        ∈ processRows exDfC5
    ∧ hourOf (usPerDay + 64800000000) = NIGHT_START_HOUR
    ∧ (deriveFull (mkEv "Sleep" (usPerDay + 64800000000) (some (usPerDay + 64800000000)))).dayOrNight
        = some "Night" :=
  ⟨by decide, by decide,
   (day_or_night_boundary exDfC5 _ (by decide) (usPerDay + 64800000000) (by decide)).1
     (by decide)⟩

/-! ### Claim C10 -/

/-- Claim C10: a normalized event with a null `End` (hence null `EndDate`)
satisfies neither splitter branch — `StartDate == EndDate` and
`StartDate != EndDate` are both null comparisons, so both filters drop the
row (src/main.py lines 118-121) — and contributes no Gantt segment:
prepending such a row to any table leaves the splitter output unchanged. -/
theorem gantt_null_end_skipped (r : NormRow) (df : List NormRow) (h : r.endDate = none) :
    createDataForGantt (r :: df) = createDataForGantt df := by
  have hs : sameDay r = false := by simp [sameDay, h]
  have hd : diffDay r = false := by simp [diffDay, h]
  simp [createDataForGantt, List.filter_cons, hs, hd]

/-- Witness for `gantt_null_end_skipped`: a single null-`End` row produces
an empty Gantt table. -/
theorem gantt_null_end_skipped_witness :
    exNullEndRow.endDate = none ∧ createDataForGantt [exNullEndRow] = [] :=
  ⟨rfl, (gantt_null_end_skipped exNullEndRow [] rfl).trans rfl⟩

/-! ### Claim C2 -/

/-- Before-midnight segment the splitter emits for an overnight event. -/
def gantSegA (e : Event) : GanttSeg :=
  { type := e.type, startTime := todOf e.start
    endTime := some endOfDayUs, date := some (dateOf e.start) }

/-- After-midnight segment the splitter emits for an overnight event. -/
def gantSegB (e : Event) (v : Int) : GanttSeg :=
  { type := e.type, startTime := 0
    endTime := some (todOf v), date := some (dateOf v) }

/-- Claim C2 counterexample: for the overnight event `evC2` (day 0, 22:00
to day 1, 06:00) the instant 23:59:59.5 of day 0 (microsecond 86399500000)
lies in `[Start, End)` but in neither emitted segment, because the
before-midnight segment ends at 23:59:59.000000, not at the calendar-day
boundary (src/main.py lines 124-134).  The union of the two segments
therefore does not cover `[Start, End)`, and the split point is one second
before midnight. -/
theorem gantt_gap_counterexample :
    (deriveFull evC2).startDate = 0
    ∧ (deriveFull evC2).endDate = some 1
    ∧ evC2.start ≤ 86399500000
    ∧ (86399500000 : Int) < 108000000000
    ∧ evC2.endTs = some 108000000000
    ∧ (createDataForGantt [deriveFull evC2]).all
        (fun g => !segCoversT g 86399500000) = true := by
  decide

/-- Claim C2 (amended): for every normalized event spanning exactly one
midnight (`EndDate = StartDate + 1`), the splitter emits exactly two
segments; they never overlap; the first lies entirely on `StartDate`
(before the midnight boundary) and the second entirely on `EndDate` (from
the midnight boundary on); and their union covers every instant of
`[Start, End)` except the final sub-second window of the start day
strictly between 23:59:59.000000 and midnight. -/
theorem gantt_two_segments (e : Event) (v : Int) (hv : e.endTs = some v)
    (hd : dateOf v = dateOf e.start + 1) :
    createDataForGantt [deriveFull e] = [gantSegA e, gantSegB e v]
    ∧ (∀ t : Int, e.start ≤ t → t < v →
        (segCoversT (gantSegA e) t = true ∨ segCoversT (gantSegB e v) t = true
          ∨ (usPerDay * dateOf e.start + endOfDayUs < t
              ∧ t < usPerDay * (dateOf e.start + 1))))
    ∧ (∀ t : Int, ¬(segCoversT (gantSegA e) t = true ∧ segCoversT (gantSegB e v) t = true))
    ∧ (∀ t : Int, segCoversT (gantSegA e) t = true →
        usPerDay * dateOf e.start ≤ t ∧ t < usPerDay * (dateOf e.start + 1))
    ∧ (∀ t : Int, segCoversT (gantSegB e v) t = true →
        usPerDay * (dateOf e.start + 1) ≤ t) := by
  have key : (deriveFull e).endDate = some (dateOf e.start + 1) := by
    simp [deriveFull, addDayNight, deriveRow, hv, hd]
  have hsame : sameDay (deriveFull e) = false := by
    simp only [sameDay, key]
    have : (deriveFull e).startDate = dateOf e.start := rfl
    rw [this]
    simp only [decide_eq_false_iff_not]
    omega
  have hdiff : diffDay (deriveFull e) = true := by
    simp only [diffDay, key]
    have : (deriveFull e).startDate = dateOf e.start := rfl
    rw [this]
    simp only [decide_eq_true_eq]
    omega
  refine ⟨?_, ?_, ?_, ?_, ?_⟩
  · simp only [createDataForGantt, List.filter_cons, List.filter_nil, hsame, hdiff]
    simp [deriveFull, addDayNight, deriveRow, hv, gantSegA, gantSegB]
  · intro t h1 h2
    simp only [segCoversT, gantSegA, gantSegB, endOfDayUs, Bool.and_eq_true,
      decide_eq_true_eq, dateOf, todOf, usPerDay, usPerHour] at *
    omega
  · intro t h
    simp only [segCoversT, gantSegA, gantSegB, endOfDayUs, Bool.and_eq_true,
      decide_eq_true_eq, dateOf, todOf, usPerDay, usPerHour] at *
    omega
  · intro t h
    simp only [segCoversT, gantSegA, gantSegB, endOfDayUs, Bool.and_eq_true,
      decide_eq_true_eq, dateOf, todOf, usPerDay, usPerHour] at *
    omega
  · intro t h
    simp only [segCoversT, gantSegA, gantSegB, endOfDayUs, Bool.and_eq_true,
      decide_eq_true_eq, dateOf, todOf, usPerDay, usPerHour] at *
    omega

/-- Witness for `gantt_two_segments` at the concrete overnight event
`evC2`. -/
theorem gantt_two_segments_witness :
    evC2.endTs = some 108000000000
    ∧ dateOf 108000000000 = dateOf evC2.start + 1
    ∧ createDataForGantt [deriveFull evC2] = [gantSegA evC2, gantSegB evC2 108000000000] :=
  ⟨rfl, by decide, (gantt_two_segments evC2 108000000000 rfl (by decide)).1⟩

/-! ### Claims C3 and C4 -/

theorem mem_days_start {df : List Event} {e : Event} (he : e ∈ df) :
    dateOf e.start ∈ daysMentioned df := by
  simp only [daysMentioned, List.mem_dedup, List.mem_append, List.mem_map]
  exact Or.inl ⟨e, he, rfl⟩

theorem mem_days_end {df : List Event} {e : Event} {v : Int} (he : e ∈ df)
    (hv : e.endTs = some v) : dateOf v ∈ daysMentioned df := by
  simp only [daysMentioned, List.mem_dedup, List.mem_append, List.mem_filterMap]
  exact Or.inr ⟨e, he, by rw [hv]; rfl⟩

/-- Unpacking the first boundary filter: a row kept by `keepAfterMin`
starts strictly after the minimum `StartDate`. -/
theorem keepAfterMin_spec {df : List Event} {e : Event}
    (h : keepAfterMin (df.map deriveRow) (deriveRow e) = true) :
    ∃ m, minD ((df.map deriveRow).map (fun p => p.startDate)) = some m
      ∧ m < dateOf e.start ∧ m ∈ daysMentioned df := by
  unfold keepAfterMin at h
  cases hm : minD ((df.map deriveRow).map (fun p => p.startDate)) with
  | none => rw [hm] at h; simp at h
  | some m =>
    rw [hm] at h
    simp only [decide_eq_true_eq] at h
    refine ⟨m, rfl, h, ?_⟩
    have hmem := minD_mem _ _ hm
    simp only [List.mem_map] at hmem
    obtain ⟨p, ⟨e2, he2, hpe⟩, hps⟩ := hmem
    subst hpe
    have : dateOf e2.start = m := hps
    rw [← this]
    exact mem_days_start he2

/-- Unpacking the second boundary filter for a row with a non-null
`EndDate`: it ends strictly before the maximum `EndDate` of the
first-filter survivors, and that maximum is a mentioned day. -/
theorem keepBeforeMax_spec {df : List Event} {e : Event} {ed : Int}
    (hed : (deriveRow e).endDate = some ed)
    (h : keepBeforeMax ((df.map deriveRow).filter (keepAfterMin (df.map deriveRow)))
      (deriveRow e) = true) :
    ∃ M, ed < M ∧ M ∈ daysMentioned df := by
  unfold keepBeforeMax at h
  rw [hed] at h
  cases hM : maxD (((df.map deriveRow).filter
      (keepAfterMin (df.map deriveRow))).filterMap (fun p => p.endDate)) with
  | none => rw [hM] at h; simp at h
  | some M =>
    rw [hM] at h
    simp only [decide_eq_true_eq] at h
    refine ⟨M, h, ?_⟩
    have hmem := maxD_mem _ _ hM
    simp only [List.mem_filterMap, List.mem_filter, List.mem_map] at hmem
    obtain ⟨p, ⟨⟨e2, he2, hpe⟩, _⟩, hpd⟩ := hmem
    subst hpe
    have hpd2 : e2.endTs.map dateOf = some M := hpd
    cases hw : e2.endTs with
    | none => rw [hw] at hpd2; simp at hpd2
    | some w =>
      rw [hw] at hpd2
      simp only [Option.map_some', Option.some.injEq] at hpd2
      rw [← hpd2]
      exact mem_days_end he2 hw

/-- Claim C3 counterexample: `exDfC3` mentions exactly three calendar
days (0, 1, 2); its last-day row has a null `End`, survives both boundary
filters, and keeps `StartDate = 2`, the last calendar day present — so
the Normalizer's output does contain a row dated on the last day. -/
theorem boundary_days_counterexample :
    (daysMentioned exDfC3).length = 3
    ∧ maxD (daysMentioned exDfC3) = some 2
    ∧ (processRows exDfC3).map (fun r => r.startDate) = [2] := by
  decide

/-- Claim C3 (amended): in a raw log mentioning at least three distinct
calendar days, no Normalizer output row has `StartDate` equal to the
first mentioned day, and no output row has a non-null `EndDate` equal to
the last mentioned day; when additionally every row has a non-null `End`
at or after its `Start`, no output row has `StartDate` on the last day
either.  (A row with a null `End` may keep a `StartDate` on the last
day — the `is_null` exemption of src/main.py line 85 retains it.) -/
theorem processRows_boundary_days (df : List Event)
    (_hN : 3 ≤ (daysMentioned df).length) :
    ∀ r ∈ processRows df,
      some r.startDate ≠ minD (daysMentioned df)
      ∧ (∀ ed : Int, r.endDate = some ed → some ed ≠ maxD (daysMentioned df))
      ∧ ((∀ e ∈ df, wfEnd e = true) → some r.startDate ≠ maxD (daysMentioned df)) := by
  intro r hr
  obtain ⟨e, he, h1, h2, hre⟩ := mem_processRows hr
  subst hre
  have hsd : (deriveFull e).startDate = dateOf e.start := rfl
  have hb : ∀ ed : Int, (deriveFull e).endDate = some ed
      → some ed ≠ maxD (daysMentioned df) := by
    intro ed hed hmax
    obtain ⟨M, hlt, hMmem⟩ := keepBeforeMax_spec (hed : (deriveRow e).endDate = some ed) h2
    have := maxD_ge _ _ hmax.symm _ hMmem
    omega
  refine ⟨?_, hb, ?_⟩
  · intro hmin
    obtain ⟨m, hm, hlt, hmmem⟩ := keepAfterMin_spec h1
    rw [hsd] at hmin
    have := minD_le _ _ hmin.symm _ hmmem
    omega
  · intro hwf hmax
    have hwfe := hwf e he
    unfold wfEnd at hwfe
    cases hv : e.endTs with
    | none => rw [hv] at hwfe; simp at hwfe
    | some v =>
      rw [hv] at hwfe
      simp only [decide_eq_true_eq] at hwfe
      rw [hsd] at hmax
      have hdle : dateOf e.start ≤ dateOf v := by
        unfold dateOf usPerDay
        omega
      have hvmem : dateOf v ∈ daysMentioned df := mem_days_end he hv
      have hge := maxD_ge _ _ hmax.symm _ hvmem
      have heq : dateOf v = dateOf e.start := le_antisymm hge hdle
      exact hb (dateOf v) (by simp [deriveFull, addDayNight, deriveRow, hv])
        (by rw [heq]; exact hmax)

/-- Witness for `processRows_boundary_days` at `exDfC3`: its surviving
row does not start on the first mentioned day. -/
theorem processRows_boundary_days_witness :
    3 ≤ (daysMentioned exDfC3).length
    ∧ deriveFull (mkEv "Sleep" (2 * usPerDay + 36000000000) none) ∈ processRows exDfC3
    ∧ some (deriveFull (mkEv "Sleep" (2 * usPerDay + 36000000000) none)).startDate
        ≠ minD (daysMentioned exDfC3) :=
  ⟨by decide, by decide,
   (processRows_boundary_days exDfC3 (by decide) _ (by decide)).1⟩

/-- Claim C4 counterexample: `exDfC4` mentions exactly two distinct
calendar days, one of its rows has a null `End`, and the Normalizer's
output is not empty — the null-`End` row on day 1 survives both filters,
contradicting "yields an empty table, including when some rows have a
null End". -/
theorem two_day_null_counterexample :
    (daysMentioned exDfC4).length = 2
    ∧ (processRows exDfC4).map (fun r => (r.startDate, r.endDate)) = [(1, none)] := by
  decide

/-- Claim C4 (amended): a raw log mentioning exactly two distinct
calendar days yields an empty Normalizer output provided every row has a
non-null `End` at or after its `Start`; a row with a null `End` starting
after the minimum `StartDate` is retained instead (src/main.py line 85). -/
theorem two_day_empty (df : List Event)
    (h2 : (daysMentioned df).length = 2)
    (hwf : ∀ e ∈ df, wfEnd e = true) :
    processRows df = [] := by
  by_contra hne
  obtain ⟨r, hr⟩ := List.exists_mem_of_ne_nil _ hne
  obtain ⟨e, he, hk1, hk2, hre⟩ := mem_processRows hr
  obtain ⟨a, b, hab⟩ := List.length_eq_two.mp h2
  obtain ⟨m, hm, hmlt, hmmem⟩ := keepAfterMin_spec hk1
  have hwfe := hwf e he
  unfold wfEnd at hwfe
  cases hv : e.endTs with
  | none => rw [hv] at hwfe; simp at hwfe
  | some v =>
    rw [hv] at hwfe
    simp only [decide_eq_true_eq] at hwfe
    have hed : (deriveRow e).endDate = some (dateOf v) := by
      simp [deriveRow, hv]
    obtain ⟨M, hMlt, hMmem⟩ := keepBeforeMax_spec hed hk2
    have hsmem : dateOf e.start ∈ daysMentioned df := mem_days_start he
    have hdle : dateOf e.start ≤ dateOf v := by
      unfold dateOf usPerDay
      omega
    rw [hab] at hmmem hMmem hsmem
    simp only [List.mem_cons, List.mem_singleton, List.not_mem_nil, or_false] at hmmem hMmem hsmem
    rcases hmmem with hm1 | hm1 <;> rcases hMmem with hM1 | hM1
      <;> rcases hsmem with hs1 | hs1 <;> omega

/-- Witness for `two_day_empty` at the well-formed two-day log
`exDfC4w`. -/
theorem two_day_empty_witness :
    (daysMentioned exDfC4w).length = 2 ∧ processRows exDfC4w = [] :=
  ⟨by decide, two_day_empty exDfC4w (by decide) (by decide)⟩

/-! ### Claim C7 -/

/-- Error propagation through the row parser: any malformed row aborts
the whole parse. -/
theorem parseRows_err (rs : List RawRow) (h : ∃ r ∈ rs, rowMalformed r = true) :
    exceptIsError (parseRows rs) = true := by
  induction rs with
  | nil => simp at h
  | cons a as ih =>
    obtain ⟨r, hr, hm⟩ := h
    rcases List.mem_cons.mp hr with h1 | h1
    · subst h1
      unfold rowMalformed at hm
      unfold parseRows parseRow
      cases hs : parseDT r.start with
      | none => simp [exceptIsError]
      | some s =>
        rw [hs] at hm
        simp only [Option.isNone_some, Bool.false_or] at hm
        cases he : r.endRaw with
        | none => rw [he] at hm; simp at hm
        | some es =>
          rw [he] at hm
          simp only [Option.isNone_iff_eq_none] at hm
          cases hpe : parseDT es with
          | none => simp [exceptIsError, hpe]
          | some v => rw [hpe] at hm; simp at hm
    · have htail := ih ⟨r, h1, hm⟩
      unfold parseRows
      cases hp : parseRow a with
      | error e => simp [exceptIsError]
      | ok ev =>
        cases hq : parseRows as with
        | error e => simp [exceptIsError]
        | ok evs => rw [hq] at htail; simp [exceptIsError] at htail

/-- Claim C7: if the raw table is missing the `Start` or `End` column, or
some row has a `Start` or non-null `End` cell that does not match
DATE_FORMAT, then `load_and_process_data` surfaces an error to the caller
(after logging it — a side effect outside the model) and produces no
dataset at all: the `try` block (src/main.py lines 46-91) re-raises, so
the result is the error case, never a partial table. -/
theorem load_fail_fast (t : RawTable)
    (h : t.hasStart = false ∨ t.hasEnd = false
      ∨ ∃ r ∈ t.rows, rowMalformed r = true) :
    exceptIsError (loadAndProcessData t) = true := by
  unfold loadAndProcessData
  rcases h with h | h | h
  · simp [h, exceptIsError]
  · simp [h, exceptIsError]
  · cases hse : (t.hasStart && t.hasEnd) with
    | false => simp [exceptIsError]
    | true =>
      simp only [if_true]
      have := parseRows_err t.rows h
      cases hq : parseRows t.rows with
      | error e => simp [exceptIsError]
      | ok evs => rw [hq] at this; simp [exceptIsError] at this

/-- Witness for `load_fail_fast` at `exBadTable`, whose single row has
the unparseable `Start` cell `"garbage"`. -/
theorem load_fail_fast_witness :
    (exBadTable.hasStart = false ∨ exBadTable.hasEnd = false
      ∨ ∃ r ∈ exBadTable.rows, rowMalformed r = true)
    ∧ exceptIsError (loadAndProcessData exBadTable) = true :=
  ⟨by decide, load_fail_fast exBadTable (by decide)⟩

/-! ### Claim C8 -/

/-- Claim C8 counterexample: the growth row `exBadGrowth` has the
non-null weight cell `"abc"`, which keeps no `"kg"` suffix and is not
numeric; the claim says the parser produces a null value without raising,
but the strict `.cast(pl.Float64)` (src/main.py line 290, strict by
default) makes the growth-table construction raise instead. -/
theorem growth_cast_counterexample :
    exBadGrowth.type = "Growth"
    ∧ exBadGrowth.startCondition = some "abc"
    ∧ growthDF [exBadGrowth] = Except.error "InvalidOperationError" :=
  ⟨rfl, rfl, rfl⟩

/-- Claim C8 (amended): a growth row whose measurement cell is missing
(null) yields a null value for that field and the row is retained without
error; but a non-null measurement whose remainder after stripping the
unit substring is non-numeric makes the strict cast raise
`InvalidOperationError` — the whole growth-table construction fails
rather than producing a null for that field. -/
theorem growth_parse_amended (r : NormRow) (hty : r.type = "Growth") :
    (r.startCondition = none → r.startLocation = none → r.endCondition = none →
      growthDF [r] = Except.ok [{ startDate := r.startDate, weight := none
                                  height := none, headCircumference := none }])
    ∧ (∀ s, r.startCondition = some s → parseFloatQ (stripUnit 'k' 'g' s) = none →
        growthDF [r] = Except.error "InvalidOperationError") := by
  constructor
  · intro h1 h2 h3
    simp [growthDF, hty, growthRowsGo, growthRowOf, castStrict, h1, h2, h3]
  · intro s hs hp
    simp [growthDF, hty, growthRowsGo, growthRowOf, castStrict, hs, hp]

/-- Witness for `growth_parse_amended` at `exNullGrowth`, whose three
measurement cells are all null. -/
theorem growth_parse_amended_witness :
    exNullGrowth.type = "Growth"
    ∧ growthDF [exNullGrowth]
        = Except.ok [{ startDate := 0, weight := none
                       height := none, headCircumference := none }] :=
  ⟨rfl, (growth_parse_amended exNullGrowth rfl).1 rfl rfl rfl⟩

/-! ### Claim C9 -/

/-- Claim C9 counterexample: on the empty normalized table the "Sleep
hours per day" metric does not yield a null result — `.item()` is `None`
and `int(round(None, 0))` raises `TypeError` (src/main.py lines 298-313),
modelled as the error case. -/
theorem empty_metrics_counterexample :
    sleepHoursPerDayMetric [] = Except.error () := rfl

/-- Claim C9 (amended): on the empty normalized table the ranked
best-night and worst-night tables are empty (head of an empty sort), but
all four overview scalar metrics fail with a `TypeError` from
`int(round(None, 0))` instead of yielding null — callers do not get a
null scalar, they get an exception. -/
theorem empty_aggregations_amended :
    createBestDaysDF [] = []
    ∧ createWorstDaysDF [] = []
    ∧ sleepHoursPerDayMetric [] = Except.error ()
    ∧ sleepsPerDayMetric [] = Except.error ()
    ∧ nightShareMetric [] = Except.error ()
    ∧ feedsPerDayMetric [] = Except.error () :=
  ⟨rfl, rfl, rfl, rfl, rfl, rfl⟩

/-! ### Claim C6 -/

instance : IsTotal (Int × Option ℚ) rDesc where
  total a b := by
    rcases a with ⟨x, qa⟩
    rcases b with ⟨y, qb⟩
    cases qa <;> cases qb <;> simp [rDesc, descLe]
    exact le_total _ _

instance : IsTotal (Int × Option ℚ) rAsc where
  total a b := by
    rcases a with ⟨x, qa⟩
    rcases b with ⟨y, qb⟩
    cases qa <;> cases qb <;> simp [rAsc, ascLe]
    exact le_total _ _

instance : IsTrans (Int × Option ℚ) rDesc where
  trans a b c hab hbc := by
    rcases a with ⟨x, qa⟩
    rcases b with ⟨y, qb⟩
    rcases c with ⟨z, qc⟩
    cases qa <;> cases qb <;> cases qc <;> simp_all [rDesc, descLe]
    linarith

instance : IsTrans (Int × Option ℚ) rAsc where
  trans a b c hab hbc := by
    rcases a with ⟨x, qa⟩
    rcases b with ⟨y, qb⟩
    rcases c with ⟨z, qc⟩
    cases qa <;> cases qb <;> cases qc <;> simp_all [rAsc, ascLe]
    linarith

theorem uniqueKeysAux_invariant (l : List Int) : ∀ seen : List Int,
    (uniqueKeysAux seen l).Nodup
    ∧ ∀ x ∈ uniqueKeysAux seen l, seen.contains x = false := by
  induction l with
  | nil => intro seen; simp [uniqueKeysAux]
  | cons k ks ih =>
    intro seen
    unfold uniqueKeysAux
    by_cases hk : seen.contains k
    · rw [if_pos hk]
      exact ih seen
    · rw [if_neg hk]
      obtain ⟨hnd, hns⟩ := ih (k :: seen)
      refine ⟨List.nodup_cons.mpr ⟨?_, hnd⟩, ?_⟩
      · intro hmem
        have := hns k hmem
        simp [List.contains_cons] at this
      · intro x hx
        rcases List.mem_cons.mp hx with h | h
        · subst h
          exact Bool.not_eq_true _ ▸ (by simpa using hk)
        · have := hns x h
          simp only [List.contains_cons, Bool.or_eq_false_iff] at this
          exact this.2

theorem uniqueKeys_nodup (l : List Int) : (uniqueKeys l).Nodup :=
  (uniqueKeysAux_invariant l []).1

theorem groupMeans_fst (rows : List NormRow) :
    (groupMeans rows).map Prod.fst = uniqueKeys (rows.map (fun r => r.nightDay)) := by
  unfold groupMeans
  rw [List.map_map]
  have h : (Prod.fst ∘ fun k => (k, meanOpt ((rows.filter
      (fun r => r.nightDay == k)).map (fun r => r.duration)))) = id := rfl
  rw [h, List.map_id]

/-- Core counting argument: with more than 20 groups of pairwise distinct
non-null means, no group can sit in the top 10 of the descending sort and
in the top 10 of the ascending sort at once — otherwise at least
`length - 10` groups are strictly below it and `length - 10` strictly
above it, which needs `2 * (length - 10) + 1 ≤ length`, impossible for
`length ≥ 21`. -/
theorem take10_not_mem_both (G : List (Int × Option ℚ))
    (hn : 21 ≤ G.length)
    (hs : ∀ g ∈ G, (g.2).isSome = true)
    (hd : G.Pairwise (fun a b => a.2 ≠ b.2))
    (x : Int × Option ℚ)
    (hxD : x ∈ (List.insertionSort rDesc G).take 10)
    (hxA : x ∈ (List.insertionSort rAsc G).take 10) : False := by
  have pD : (List.insertionSort rDesc G).Perm G := List.perm_insertionSort rDesc G
  have pA : (List.insertionSort rAsc G).Perm G := List.perm_insertionSort rAsc G
  have sortedD : List.Pairwise rDesc (List.insertionSort rDesc G) :=
    List.sorted_insertionSort rDesc G
  have sortedA : List.Pairwise rAsc (List.insertionSort rAsc G) :=
    List.sorted_insertionSort rAsc G
  have hdD : (List.insertionSort rDesc G).Pairwise (fun a b => a.2 ≠ b.2) :=
    (pD.pairwise_iff (fun h => h.symm)).mpr hd
  have hdA : (List.insertionSort rAsc G).Pairwise (fun a b => a.2 ≠ b.2) :=
    (pA.pairwise_iff (fun h => h.symm)).mpr hd
  have hxmem : x ∈ G := pD.subset (List.take_subset 10 _ hxD)
  obtain ⟨qx, hqx⟩ := Option.isSome_iff_exists.mp (hs x hxmem)
  -- every dropped element of the descending sort is strictly below x
  have hDdrop : ∀ y ∈ (List.insertionSort rDesc G).drop 10, meanVal y < meanVal x := by
    intro y hy
    have hymem : y ∈ G := pD.subset (List.drop_subset 10 _ hy)
    obtain ⟨qy, hqy⟩ := Option.isSome_iff_exists.mp (hs y hymem)
    have hsplit : List.Pairwise rDesc
        ((List.insertionSort rDesc G).take 10 ++ (List.insertionSort rDesc G).drop 10) := by
      rw [List.take_append_drop]
      exact sortedD
    have hrel := (List.pairwise_append.mp hsplit).2.2 x hxD y hy
    have hsplit2 : List.Pairwise (fun a b : Int × Option ℚ => a.2 ≠ b.2)
        ((List.insertionSort rDesc G).take 10 ++ (List.insertionSort rDesc G).drop 10) := by
      rw [List.take_append_drop]
      exact hdD
    have hne := (List.pairwise_append.mp hsplit2).2.2 x hxD y hy
    unfold rDesc at hrel
    rw [hqx, hqy] at hrel hne
    simp only [descLe, decide_eq_true_eq] at hrel
    have : qy ≠ qx := fun h => hne (by rw [h])
    unfold meanVal
    rw [hqx, hqy]
    simp only [Option.getD_some]
    exact lt_of_le_of_ne hrel this
  -- every dropped element of the ascending sort is strictly above x
  have hAdrop : ∀ y ∈ (List.insertionSort rAsc G).drop 10, meanVal x < meanVal y := by
    intro y hy
    have hymem : y ∈ G := pA.subset (List.drop_subset 10 _ hy)
    obtain ⟨qy, hqy⟩ := Option.isSome_iff_exists.mp (hs y hymem)
    have hsplit : List.Pairwise rAsc
        ((List.insertionSort rAsc G).take 10 ++ (List.insertionSort rAsc G).drop 10) := by
      rw [List.take_append_drop]
      exact sortedA
    have hrel := (List.pairwise_append.mp hsplit).2.2 x hxA y hy
    have hsplit2 : List.Pairwise (fun a b : Int × Option ℚ => a.2 ≠ b.2)
        ((List.insertionSort rAsc G).take 10 ++ (List.insertionSort rAsc G).drop 10) := by
      rw [List.take_append_drop]
      exact hdA
    have hne := (List.pairwise_append.mp hsplit2).2.2 x hxA y hy
    unfold rAsc at hrel
    rw [hqx, hqy] at hrel hne
    simp only [ascLe, decide_eq_true_eq] at hrel
    have : qx ≠ qy := fun h => hne (by rw [h])
    unfold meanVal
    rw [hqx, hqy]
    simp only [Option.getD_some]
    exact lt_of_le_of_ne hrel this
  -- counting
  have hcountD : G.length - 10 ≤ G.countP (fun z => decide (meanVal z < meanVal x)) := by
    have h1 : ((List.insertionSort rDesc G).drop 10).countP
        (fun z => decide (meanVal z < meanVal x))
        = ((List.insertionSort rDesc G).drop 10).length :=
      List.countP_eq_length.mpr (fun a ha => by simpa using hDdrop a ha)
    have h2 : (List.insertionSort rDesc G).countP (fun z => decide (meanVal z < meanVal x))
        = ((List.insertionSort rDesc G).take 10).countP (fun z => decide (meanVal z < meanVal x))
          + ((List.insertionSort rDesc G).drop 10).countP (fun z => decide (meanVal z < meanVal x)) := by
      rw [← List.countP_append, List.take_append_drop]
    have h3 := pD.countP_eq (fun z => decide (meanVal z < meanVal x))
    have h4 := pD.length_eq
    have h5 : ((List.insertionSort rDesc G).drop 10).length
        = (List.insertionSort rDesc G).length - 10 := List.length_drop 10 _
    omega
  have hcountA : G.length - 10 ≤ G.countP (fun z => decide (meanVal x < meanVal z)) := by
    have h1 : ((List.insertionSort rAsc G).drop 10).countP
        (fun z => decide (meanVal x < meanVal z))
        = ((List.insertionSort rAsc G).drop 10).length :=
      List.countP_eq_length.mpr (fun a ha => by simpa using hAdrop a ha)
    have h2 : (List.insertionSort rAsc G).countP (fun z => decide (meanVal x < meanVal z))
        = ((List.insertionSort rAsc G).take 10).countP (fun z => decide (meanVal x < meanVal z))
          + ((List.insertionSort rAsc G).drop 10).countP (fun z => decide (meanVal x < meanVal z)) := by
      rw [← List.countP_append, List.take_append_drop]
    have h3 := pA.countP_eq (fun z => decide (meanVal x < meanVal z))
    have h4 := pA.length_eq
    have h5 : ((List.insertionSort rAsc G).drop 10).length
        = (List.insertionSort rAsc G).length - 10 := List.length_drop 10 _
    omega
  have hmono : G.countP (fun z => decide (meanVal x < meanVal z))
      ≤ G.countP (fun z => decide ¬(decide (meanVal z < meanVal x) = true)) := by
    refine List.countP_mono_left (fun z hz h => ?_)
    simp only [decide_eq_true_eq] at h ⊢
    intro hlt
    exact absurd h (not_lt_of_gt hlt)
  have hsplitlen := List.length_eq_countP_add_countP
    (fun z => decide (meanVal z < meanVal x)) G
  omega

/-- Claim C6 counterexample: `exTieEvents` normalizes to 21 qualifying
night groups (more than 20) with all-equal mean durations; with all ties,
the descending and ascending sorts both keep the group order, so the two
top-10 tables share dates — date 1 appears in both.  (polars leaves tie
order unspecified, so disjointness is not guaranteed; the model's stable
sort realizes a tie order that breaks the claim.) -/
theorem best_worst_tie_counterexample :
    21 ≤ (groupMeans (sleepNights (processRows exTieEvents))).length
    ∧ (1 : Int) ∈ (createBestDaysDF (processRows exTieEvents)).map Prod.fst
    ∧ (1 : Int) ∈ (createWorstDaysDF (processRows exTieEvents)).map Prod.fst := by
  refine ⟨by decide, by decide, by decide⟩

/-- Claim C6 (amended): for a normalized table with more than 20
qualifying night groups whose mean durations are non-null and pairwise
distinct, the best-night and worst-night top-10 tables have disjoint
`Date` sets, the best table is sorted by non-increasing mean duration and
the worst table by non-decreasing mean duration (reverse order relative
to each other). -/
theorem best_worst_disjoint_sorted (rows : List NormRow)
    (hn : 21 ≤ (groupMeans (sleepNights rows)).length)
    (hs : ∀ g ∈ groupMeans (sleepNights rows), (g.2).isSome = true)
    (hd : (groupMeans (sleepNights rows)).Pairwise (fun a b => a.2 ≠ b.2)) :
    (∀ g ∈ createBestDaysDF rows, ∀ h2 ∈ createWorstDaysDF rows, g.1 ≠ h2.1)
    ∧ (createBestDaysDF rows).Pairwise (fun a b => meanVal b ≤ meanVal a)
    ∧ (createWorstDaysDF rows).Pairwise (fun a b => meanVal a ≤ meanVal b) := by
  have pD := List.perm_insertionSort rDesc (groupMeans (sleepNights rows))
  have pA := List.perm_insertionSort rAsc (groupMeans (sleepNights rows))
  have hnodupfst : ((groupMeans (sleepNights rows)).map Prod.fst).Nodup := by
    rw [groupMeans_fst]
    exact uniqueKeys_nodup _
  refine ⟨?_, ?_, ?_⟩
  · intro g hg h2 hh heq
    have hgG : g ∈ groupMeans (sleepNights rows) :=
      pD.subset (List.take_subset 10 _ hg)
    have hhG : h2 ∈ groupMeans (sleepNights rows) :=
      pA.subset (List.take_subset 10 _ hh)
    have : g = h2 := List.inj_on_of_nodup_map hnodupfst hgG hhG heq
    subst this
    exact take10_not_mem_both (groupMeans (sleepNights rows)) hn hs hd g hg hh
  · have h1 : List.Pairwise rDesc (createBestDaysDF rows) :=
      List.Pairwise.sublist (List.take_sublist 10 _)
        (List.sorted_insertionSort rDesc (groupMeans (sleepNights rows)))
    refine h1.imp_of_mem (fun {a b} ha hb hab => ?_)
    have haG : a ∈ groupMeans (sleepNights rows) := pD.subset (List.take_subset 10 _ ha)
    have hbG : b ∈ groupMeans (sleepNights rows) := pD.subset (List.take_subset 10 _ hb)
    obtain ⟨qa, hqa⟩ := Option.isSome_iff_exists.mp (hs a haG)
    obtain ⟨qb, hqb⟩ := Option.isSome_iff_exists.mp (hs b hbG)
    unfold rDesc at hab
    rw [hqa, hqb] at hab
    simp only [descLe, decide_eq_true_eq] at hab
    unfold meanVal
    rw [hqa, hqb]
    simpa using hab
  · have h1 : List.Pairwise rAsc (createWorstDaysDF rows) :=
      List.Pairwise.sublist (List.take_sublist 10 _)
        (List.sorted_insertionSort rAsc (groupMeans (sleepNights rows)))
    refine h1.imp_of_mem (fun {a b} ha hb hab => ?_)
    have haG : a ∈ groupMeans (sleepNights rows) := pA.subset (List.take_subset 10 _ ha)
    have hbG : b ∈ groupMeans (sleepNights rows) := pA.subset (List.take_subset 10 _ hb)
    obtain ⟨qa, hqa⟩ := Option.isSome_iff_exists.mp (hs a haG)
    obtain ⟨qb, hqb⟩ := Option.isSome_iff_exists.mp (hs b hbG)
    unfold rAsc at hab
    rw [hqa, hqb] at hab
    simp only [ascLe, decide_eq_true_eq] at hab
    unfold meanVal
    rw [hqa, hqb]
    simpa using hab

/-- Witness for `best_worst_disjoint_sorted` at `exDistinctEvents`, whose
21 qualifying night groups have pairwise distinct non-null means. -/
theorem best_worst_disjoint_sorted_witness :
    21 ≤ (groupMeans (sleepNights (processRows exDistinctEvents))).length
    ∧ ∀ g ∈ createBestDaysDF (processRows exDistinctEvents),
        ∀ h2 ∈ createWorstDaysDF (processRows exDistinctEvents), g.1 ≠ h2.1 :=
  ⟨by decide,
   (best_worst_disjoint_sorted (processRows exDistinctEvents)
     (by decide) (by decide) (by decide)).1⟩
